import Mathlib

/-!
Verification of the pydexec core: the identity resolver (`pydexec/user.py`)
and the command builder/executor (`pydexec/command.py`), shallowly embedded
in Lean.  Python strings are modelled as `List Char`, Python dicts as
insertion-ordered association lists, Python exceptions as `Except PyErr`,
and the process-level side effects of `User.set_user`, `Command.run` and
`Command.exec_` as explicit traces of operations.
-/

namespace Pydexec

/-- Python strings, modelled as lists of characters. -/
abbrev PStr := List Char

/-- Python exception kinds raised by the embedded code. -/
inductive PyErr where
  | valueError (msg : PStr)
  | keyError (key : PStr)
  | runtimeError (msg : PStr)
deriving DecidableEq, Repr

instance {ε α : Type} [DecidableEq ε] [DecidableEq α] :
    DecidableEq (Except ε α) := fun x y =>
  match x, y with
  | .error a, .error b =>
    if h : a = b then .isTrue (h ▸ rfl)
    else .isFalse (fun he => h (Except.error.inj he))
  | .ok a, .ok b =>
    if h : a = b then .isTrue (h ▸ rfl)
    else .isFalse (fun he => h (Except.ok.inj he))
  | .error _, .ok _ => .isFalse (fun he => Except.noConfusion he)
  | .ok _, .error _ => .isFalse (fun he => Except.noConfusion he)

/-- Python's `str.split(sep)` for a single-character separator: splits at
every occurrence of `sep`, keeping empty parts (`"".split(':') == ['']`,
`":".split(':') == ['', '']`). -/
def pySplit (sep : Char) : PStr → List PStr
  | [] => [[]]
  | c :: cs =>
    match pySplit sep cs with
    | [] => [[]]
    | p :: ps => if c = sep then [] :: p :: ps else (c :: p) :: ps

/-- Python's `str.isdigit` restricted to ASCII digits: nonempty and all
characters in `'0'..'9'`. -/
def pyIsDigit (s : PStr) : Bool :=
  !s.isEmpty && s.all (fun c => decide ('0' ≤ c) && decide (c ≤ '9'))

/-- Python's `int(s)` on an all-ASCII-digit string: the decimal value. -/
def digitsToNat (s : PStr) : Nat :=
  s.foldl (fun acc c => acc * 10 + (c.toNat - '0'.toNat)) 0

/-- `%d` formatting of a natural number. -/
def natToDec (n : Nat) : PStr := Nat.toDigits 10 n

/-! ### pydexec/user.py -/

/-- `MIN_ID = 0` -/
def MIN_ID : Nat := 0

/-- `MAX_ID = 1 << 31 - 1`.  In Python, `-` binds tighter than `<<`, so the
source computes `1 << (31 - 1) = 2^30`, despite the adjacent comment
"32-bit compatibility". -/
def MAX_ID : Nat := 1 <<< (31 - 1)

/-- `_to_id(arg)`: parse a (digit-guarded) numeral and range-check it
against `MIN_ID`/`MAX_ID`, raising `ValueError` when out of range. -/
def toId (arg : PStr) : Except PyErr Nat :=
  let i := digitsToNat arg
  if i < MIN_ID ∨ i > MAX_ID then
    .error (.valueError ("uids and gids must be in range ".data
      ++ natToDec MIN_ID ++ "-".data ++ natToDec MAX_ID))
  else
    .ok i

/-- A `pwd` database record (`pwd.struct_passwd`, the fields pydexec uses). -/
structure Passwd where
  pw_name : PStr
  pw_uid : Nat
  pw_gid : Nat
  pw_dir : PStr
deriving DecidableEq, Repr

/-- A `grp` database record (`grp.struct_group`, the fields pydexec uses). -/
structure Group where
  gr_name : PStr
  gr_gid : Nat
deriving DecidableEq, Repr

/-- The ambient host identity database and process identity, i.e. the
behaviour of `pwd.getpwnam`, `pwd.getpwuid`, `grp.getgrnam`, `os.getuid`
and `os.getgid` at resolution time. -/
structure SysDB where
  getpwnam : PStr → Option Passwd
  getpwuid : Nat → Option Passwd
  getgrnam : PStr → Option Group
  cur_uid : Nat
  cur_gid : Nat

/-- The `User` value produced by `User.from_spec`: uid, gid, the username to
derive supplementary groups from (when the group part was implicit), and
the home directory. -/
structure User where
  uid : Nat
  gid : Nat
  sgroups_user : Option PStr
  home : PStr
deriving DecidableEq, Repr

/-- The user-part block of `User.from_spec`: resolve `user_arg` to a uid and
an optional passwd record.  An empty `user_arg` uses the current uid and an
unguarded `pwd.getpwuid` lookup (which raises `KeyError` when absent); a
digit string is range-checked and looked up with the `KeyError` swallowed;
a name must have a passwd entry. -/
def userPart (db : SysDB) (user_arg : PStr) : Except PyErr (Nat × Option Passwd) :=
  if user_arg ≠ [] then
    if pyIsDigit user_arg then
      match toId user_arg with
      | .error e => .error e
      | .ok uid => .ok (uid, db.getpwuid uid)
    else
      match db.getpwnam user_arg with
      | none => .error (.keyError user_arg)
      | some passwd => .ok (passwd.pw_uid, some passwd)
  else
    match db.getpwuid db.cur_uid with
    | none => .error (.keyError ("getpwuid(): uid not found".data))
    | some passwd => .ok (db.cur_uid, some passwd)

/-- The group-part block of `User.from_spec`: resolve `group_arg` to a gid
and the optional supplementary-groups username.  A digit string is
range-checked; a name must have a group entry; an empty `group_arg` falls
back to the passwd record's gid (recording its username for supplementary
groups) or, with no record, to the current gid. -/
def groupPart (db : SysDB) (passwd : Option Passwd) (group_arg : PStr) :
    Except PyErr (Nat × Option PStr) :=
  if group_arg ≠ [] then
    if pyIsDigit group_arg then
      match toId group_arg with
      | .error e => .error e
      | .ok gid => .ok (gid, none)
    else
      match db.getgrnam group_arg with
      | none => .error (.keyError group_arg)
      | some g => .ok (g.gr_gid, none)
  else
    match passwd with
    | some p => .ok (p.pw_gid, some p.pw_name)
    | none => .ok (db.cur_gid, none)

/-- The straight-line body of `User.from_spec` after the spec string has
been split into user and group parts. -/
def fromSpecParts (db : SysDB) (user_arg group_arg : PStr) : Except PyErr User :=
  match userPart db user_arg with
  | .error e => .error e
  | .ok (uid, passwd) =>
    match groupPart db passwd group_arg with
    | .error e => .error e
    | .ok (gid, sgroups_user) =>
      .ok { uid := uid, gid := gid, sgroups_user := sgroups_user,
            home := match passwd with
                    | some p => p.pw_dir
                    | none => "/".data }

/-- `User.from_spec(user_spec)`: split on `':'` into `[user][:group]`
(raising `ValueError` on more than two parts) and resolve both parts. -/
def from_spec (db : SysDB) (user_spec : PStr) : Except PyErr User :=
  match pySplit ':' user_spec with
  | [user_arg] => fromSpecParts db user_arg []
  | [user_arg, group_arg] => fromSpecParts db user_arg group_arg
  | _ => .error (.valueError ("Invalid user spec string \"".data
      ++ user_spec ++ "\"".data))

/-- The process-level operations performed by `User.set_user` (and recorded
by `Command.exec_` / the pre-exec hook), in the order they are issued. -/
inductive SysOp where
  | initgroups (user : PStr) (gid : Nat)
  | setgroups (gids : List Nat)
  | setgid (gid : Nat)
  | setuid (uid : Nat)
  | setHome (home : PStr)
deriving DecidableEq, Repr

/-- `User.set_user`: the ordered trace of process-identity changes it
performs — supplementary groups (`os.initgroups` from the stored username,
else `os.setgroups([gid])`), then `os.setgid`, then `os.setuid`, then
`env['HOME'] = home`. -/
def User.set_user (u : User) : List SysOp :=
  (match u.sgroups_user with
   | some name => [SysOp.initgroups name u.gid]
   | none => [SysOp.setgroups [u.gid]])
  ++ [SysOp.setgid u.gid, SysOp.setuid u.uid, SysOp.setHome u.home]

/-- Whether a `SysOp` changes the process's group identity (supplementary
list or gid). -/
def SysOp.isGroupChange : SysOp → Bool
  | .initgroups _ _ => true
  | .setgroups _ => true
  | .setgid _ => true
  | _ => false

/-- Whether a `SysOp` is the user-identity change. -/
def SysOp.isUidChange : SysOp → Bool
  | .setuid _ => true
  | _ => false

/-! ### pydexec/command.py

Python dicts are insertion-ordered mappings with unique keys; the builder's
`self._env` is modelled as an association list with that discipline. -/

/-- Dict lookup: the value stored at `k`, if any. -/
def envGet : List (PStr × PStr) → PStr → Option PStr
  | [], _ => none
  | (k', v) :: rest, k => if k' = k then some v else envGet rest k

/-- Dict upsert (`d[k] = v`): replace in place when present, else append. -/
def envSet : List (PStr × PStr) → PStr → PStr → List (PStr × PStr)
  | [], k, v => [(k, v)]
  | (k', v') :: rest, k, v =>
    if k' = k then (k, v) :: rest else (k', v') :: envSet rest k v

/-- Dict deletion of key `k` (the mutation performed by `del d[k]` and by
`d.pop(k, default)`). -/
def envDel : List (PStr × PStr) → PStr → List (PStr × PStr)
  | [], _ => []
  | (k', v) :: rest, k =>
    if k' = k then envDel rest k else (k', v) :: envDel rest k

/-- The builder state of `Command`: program, accumulated arguments, optional
resolved user, the command's own environment mapping, and the intended
working directory. -/
structure Command where
  _program : PStr
  _args : List PStr
  _user : Option User
  _env : List (PStr × PStr)
  _workdir : PStr
deriving DecidableEq, Repr

/-- `Command.__init__(program)`: empty argument list, no user, `self._env =
dict(os.environ)` (a copy of the process environment taken now) and
`self._workdir = os.getcwd()` (the process working directory taken now). -/
def Command.init (program : PStr) (procEnv : List (PStr × PStr)) (cwd : PStr) :
    Command :=
  { _program := program, _args := [], _user := none,
    _env := procEnv, _workdir := cwd }

/-- `Command.args(*args)`: append extra arguments. -/
def Command.addArgs (c : Command) (xs : List PStr) : Command :=
  { c with _args := c._args ++ xs }

/-- `Command.env(key, val)`: upsert an environment variable. -/
def Command.envAdd (c : Command) (k v : PStr) : Command :=
  { c with _env := envSet c._env k v }

/-- `Command.env_remove(key)`: `del self._env[env_key]` — raises `KeyError`
when the key is absent. -/
def Command.env_remove (c : Command) (k : PStr) : Except PyErr Command :=
  match envGet c._env k with
  | some _ => .ok { c with _env := envDel c._env k }
  | none => .error (.keyError k)

/-- `Command.env_clear()`: replace the environment with an empty dict. -/
def Command.env_clear (c : Command) : Command :=
  { c with _env := [] }

/-- `Command.workdir(directory)`: record the intended working directory. -/
def Command.setWorkdir (c : Command) (d : PStr) : Command :=
  { c with _workdir := d }

/-- `Command.user(user)`: resolve the spec and store the result. -/
def Command.setUserSpec (c : Command) (db : SysDB) (spec : PStr) :
    Except PyErr Command :=
  match from_spec db spec with
  | .error e => .error e
  | .ok u => .ok { c with _user := some u }

/-- The error message built by `Command._arg_from_env` when a required
variable is missing. -/
def requiredMsg (env_key missing_str program : PStr) : PStr :=
  "Environment variable \"".data ++ env_key
    ++ "\" is required to determine ".data ++ missing_str
    ++ " for program \"".data ++ program ++ "\"".data

/-- `Command._arg_from_env(env_key, remove, default, required, missing_str)`:
pop (or peek) the variable, fall back to the default, and raise
`RuntimeError` when required and absent.  Returns the updated command and
the value obtained. -/
def Command.argFromEnvCore (c : Command) (env_key : PStr) (remove : Bool)
    (default : Option PStr) (required : Bool) (missing_str : PStr) :
    Except PyErr (Command × Option PStr) :=
  let env_val := match envGet c._env env_key with
                 | some v => some v
                 | none => default
  let c' := if remove then { c with _env := envDel c._env env_key } else c
  if required ∧ env_val = none then
    .error (.runtimeError (requiredMsg env_key missing_str c'._program))
  else
    .ok (c', env_val)

/-- `Command.arg_from_env(env_key, default, required, remove)`: convert an
environment variable to a single program argument. -/
def Command.arg_from_env (c : Command) (env_key : PStr) (default : Option PStr)
    (required remove : Bool) : Except PyErr Command :=
  match c.argFromEnvCore env_key remove default required "an argument".data with
  | .error e => .error e
  | .ok (c', some v) => .ok (c'.addArgs [v])
  | .ok (c', none) => .ok c'

/-- `Command.opt_from_env(opt_key, env_key, default, required, remove)`:
convert an environment variable to an option flag plus value. -/
def Command.opt_from_env (c : Command) (opt_key env_key : PStr)
    (default : Option PStr) (required remove : Bool) : Except PyErr Command :=
  match c.argFromEnvCore env_key remove default required
      ("option \"".data ++ opt_key ++ "\"".data) with
  | .error e => .error e
  | .ok (c', some v) => .ok (c'.addArgs [opt_key, v])
  | .ok (c', none) => .ok c'

/-- Process-level actions issued at execution time. -/
inductive ProcAct where
  | userOps (ops : List SysOp)
  | chdir (d : PStr)
  | execvpe (file : PStr) (argv : List PStr) (env : List (PStr × PStr))
deriving DecidableEq, Repr

/-- `Command._preexec_fn`: run in the child before the program image loads —
apply the privilege drop when a user is set, then `os.chdir(self._workdir)`. -/
def Command.preexecFn (c : Command) : List ProcAct :=
  (match c._user with
   | some u => [ProcAct.userOps u.set_user]
   | none => [])
  ++ [ProcAct.chdir c._workdir]

/-- The environment mapping `Command.run` passes to the spawned child: the
builder's environment, with `HOME` overridden to the user's home when a
user is set (on a copy). -/
def Command.runChildEnv (c : Command) : List (PStr × PStr) :=
  match c._user with
  | some u => envSet c._env "HOME".data u.home
  | none => c._env

/-- The spawn request issued by `Command.run`: argv (program prepended),
child environment, and the pre-exec hook's actions. -/
structure SpawnCall where
  argv : List PStr
  env : List (PStr × PStr)
  preexec : List ProcAct
deriving DecidableEq, Repr

/-- `Command.run()`: the call made to the subprocess layer. -/
def Command.runCall (c : Command) : SpawnCall :=
  { argv := c._program :: c._args,
    env := c.runChildEnv,
    preexec := c.preexecFn }

/-- `Command.exec_()`: the ordered process-level actions of exec-replace
mode — privilege drop (when a user is set, which also updates the
builder environment's `HOME`), then `os.chdir(self._workdir)`, then
`os.execvpe(self._program, [self._program] + self._args, self._env)`. -/
def Command.execTrace (c : Command) : List ProcAct :=
  match c._user with
  | some u =>
    [ProcAct.userOps u.set_user,
     ProcAct.chdir c._workdir,
     ProcAct.execvpe c._program (c._program :: c._args)
       (envSet c._env "HOME".data u.home)]
  | none =>
    [ProcAct.chdir c._workdir,
     ProcAct.execvpe c._program (c._program :: c._args) c._env]

/-! ### A small machine interleaving builder calls with ambient process
mutations, used to state snapshot/noninterference properties. -/

/-- One builder method call (the fallible ones leave the command unchanged
when they raise, as the Python methods do). -/
inductive BuilderOp where
  | addArgs (xs : List PStr)
  | setEnv (k v : PStr)
  | removeEnv (k : PStr)
  | clearEnv
  | argFromEnv (k : PStr) (default : Option PStr) (required remove : Bool)
  | optFromEnv (opt k : PStr) (default : Option PStr) (required remove : Bool)
  | setUser (u : User)
  | setWorkdir (d : PStr)
deriving DecidableEq, Repr

/-- Apply one builder call to the command state.  A call that raises leaves
the builder unchanged (no `Command` field is mutated before the raise in
the source). -/
def applyOp (c : Command) (op : BuilderOp) : Command :=
  match op with
  | .addArgs xs => c.addArgs xs
  | .setEnv k v => c.envAdd k v
  | .removeEnv k =>
    match c.env_remove k with
    | .ok c' => c'
    | .error _ => c
  | .clearEnv => c.env_clear
  | .argFromEnv k d r rm =>
    match c.arg_from_env k d r rm with
    | .ok c' => c'
    | .error _ => c
  | .optFromEnv o k d r rm =>
    match c.opt_from_env o k d r rm with
    | .ok c' => c'
    | .error _ => c
  | .setUser u => { c with _user := some u }
  | .setWorkdir d => c.setWorkdir d

/-- An event after the command is constructed: either a builder call, or a
mutation of the real process environment (`os.environ[k] = v`), or a change
of the real process working directory (`os.chdir(d)`). -/
inductive Event where
  | builder (op : BuilderOp)
  | procSetEnv (k v : PStr)
  | procChdir (d : PStr)
deriving DecidableEq, Repr

/-- The whole-system state: the real process environment and working
directory, plus the builder. -/
structure Sys where
  procEnv : List (PStr × PStr)
  procCwd : PStr
  cmd : Command
deriving DecidableEq, Repr

/-- One step: builder calls touch only the command; process mutations touch
only the ambient process state. -/
def stepEvent (s : Sys) (e : Event) : Sys :=
  match e with
  | .builder op => { s with cmd := applyOp s.cmd op }
  | .procSetEnv k v => { s with procEnv := envSet s.procEnv k v }
  | .procChdir d => { s with procCwd := d }

/-- Run a sequence of events. -/
def runEvents (s : Sys) (es : List Event) : Sys :=
  es.foldl stepEvent s

/-- Construct the system at `Command.__init__` time: the builder snapshots
the current process environment and working directory. -/
def mkSys (program : PStr) (procEnv : List (PStr × PStr)) (cwd : PStr) : Sys :=
  { procEnv := procEnv, procCwd := cwd, cmd := Command.init program procEnv cwd }

/-- The builder calls within an event sequence. -/
def builderOps (es : List Event) : List BuilderOp :=
  es.filterMap (fun e => match e with
    | .builder op => some op
    | _ => none)

/-- Whether an event is a `workdir(...)` builder call. -/
def Event.touchesWorkdir : Event → Bool
  | .builder (.setWorkdir _) => true
  | _ => false

/-! ### Concrete identity database used to instantiate hypotheses. -/

/-- A sample passwd record. -/
def testPasswd : Passwd :=
  { pw_name := "jamie".data, pw_uid := 1000, pw_gid := 1000,
    pw_dir := "/home/jamie".data }

/-- A sample host identity database: one user `jamie` (uid/gid 1000) who is
also the current process identity, and one group `wheel` (gid 42). -/
def testDB : SysDB :=
  { getpwnam := fun n => if n = "jamie".data then some testPasswd else none,
    getpwuid := fun u => if u = 1000 then some testPasswd else none,
    getgrnam := fun g =>
      if g = "wheel".data then some { gr_name := "wheel".data, gr_gid := 42 }
      else none,
    cur_uid := 1000, cur_gid := 1000 }

/-! ### Helper lemmas about the dict model and the splitter. -/

theorem envGet_envDel_self (env : List (PStr × PStr)) (k : PStr) :
    envGet (envDel env k) k = none := by
  induction env with
  | nil => rfl
  | cons head rest ih =>
    obtain ⟨k', v⟩ := head
    by_cases h : k' = k <;> simp [envDel, envGet, h, ih]

theorem envGet_envDel_ne (env : List (PStr × PStr)) (k k' : PStr)
    (h : k' ≠ k) : envGet (envDel env k) k' = envGet env k' := by
  induction env with
  | nil => rfl
  | cons head rest ih =>
    obtain ⟨k₀, v⟩ := head
    by_cases h0 : k₀ = k
    · subst h0
      have : k₀ ≠ k' := fun hk => h (hk ▸ rfl)
      simp [envDel, envGet, this, ih]
    · by_cases h1 : k₀ = k' <;> simp [envDel, envGet, h0, h1, ih, h]

theorem pySplit_no_sep (sep : Char) :
    ∀ s : PStr, (∀ c ∈ s, c ≠ sep) → pySplit sep s = [s]
  | [], _ => rfl
  | c :: cs, h => by
    have hc : c ≠ sep := h c (by simp)
    have ih := pySplit_no_sep sep cs (fun x hx => h x (by simp [hx]))
    simp [pySplit, ih, hc]

theorem pySplit_leading_sep (sep : Char) (s : PStr)
    (h : ∀ c ∈ s, c ≠ sep) : pySplit sep (sep :: s) = [[], s] := by
  simp [pySplit, pySplit_no_sep sep s h]

theorem pyIsDigit_ne_nil {s : PStr} (h : pyIsDigit s = true) : s ≠ [] := by
  cases s with
  | nil => simp [pyIsDigit] at h
  | cons c cs => simp

theorem pyIsDigit_no_colon {s : PStr} (h : pyIsDigit s = true) :
    ∀ c ∈ s, c ≠ ':' := by
  intro c hc
  simp only [pyIsDigit, Bool.and_eq_true, List.all_eq_true] at h
  have h9 := h.2 c hc
  simp only [Bool.and_eq_true, decide_eq_true_eq] at h9
  intro hcol
  subst hcol
  exact absurd h9.2 (by decide)

/-! ### Claim theorems -/

/-- C1: the spec claims every numeral uid/gid in `[0, 2^31-1]` is accepted
and out-of-range numerals are rejected with a message naming the bounds `0`
and `2^31-1`.  The code computes `MAX_ID` as `1 << 31 - 1`, which Python
parses as `1 << 30`; so `2^31-1` itself (a value the claim says is
accepted) is rejected, with a message naming `1073741824` as the upper
bound.  The `2^32` rejection cases of the claim do hold. -/
theorem C1_range_bug :
    MAX_ID = 2 ^ 30 ∧
    MAX_ID < 2 ^ 31 - 1 ∧
    digitsToNat "2147483647".data = 2 ^ 31 - 1 ∧
    toId "2147483647".data =
      .error (.valueError
        "uids and gids must be in range 0-1073741824".data) ∧
    from_spec testDB "2147483647".data =
      .error (.valueError
        "uids and gids must be in range 0-1073741824".data) ∧
    from_spec testDB "4294967296".data =
      .error (.valueError
        "uids and gids must be in range 0-1073741824".data) ∧
    from_spec testDB ":4294967296".data =
      .error (.valueError
        "uids and gids must be in range 0-1073741824".data) := by
  refine ⟨by decide, by decide, by decide, by decide, ?_, ?_, ?_⟩ <;> decide

/-- C2 counterexample: the claim says `env_remove` on an absent key does
not raise; on a command whose environment lacks `"FOO"` the call raises
`KeyError` (`del self._env[env_key]`). -/
theorem C2_counterexample :
    (Command.init "prog".data [] "/".data).env_remove "FOO".data =
      .error (.keyError "FOO".data) := by
  decide

/-- C2 (amended): `env_remove(k)` on a present key removes exactly that key
(every other key keeps its value) and touches nothing else; on an absent
key — in particular on the second of two consecutive calls with the same
key — it raises `KeyError` instead of silently succeeding. -/
theorem C2_env_remove_behaviour (c : Command) (k : PStr) :
    (envGet c._env k = none →
      c.env_remove k = .error (.keyError k)) ∧
    (∀ v, envGet c._env k = some v →
      ∃ c', c.env_remove k = .ok c' ∧
        envGet c'._env k = none ∧
        (∀ k', k' ≠ k → envGet c'._env k' = envGet c._env k') ∧
        c'._args = c._args ∧ c'._program = c._program ∧
        c'._user = c._user ∧ c'._workdir = c._workdir ∧
        c'.env_remove k = .error (.keyError k)) := by
  constructor
  · intro h
    simp [Command.env_remove, h]
  · intro v hv
    refine ⟨{ c with _env := envDel c._env k }, ?_, ?_, ?_, rfl, rfl, rfl, rfl, ?_⟩
    · simp [Command.env_remove, hv]
    · exact envGet_envDel_self c._env k
    · intro k' hk'
      exact envGet_envDel_ne c._env k k' hk'
    · simp [Command.env_remove, envGet_envDel_self c._env k]

/-- C2 witness: both branches of the amended statement at a concrete
command (`FOO=bar` present, `BAR` absent). -/
theorem C2_env_remove_behaviour_witness :
    ((Command.init "prog".data [("FOO".data, "bar".data)] "/".data).env_remove
        "BAR".data = .error (.keyError "BAR".data)) ∧
    (∃ c', (Command.init "prog".data [("FOO".data, "bar".data)]
        "/".data).env_remove "FOO".data = .ok c' ∧
      envGet c'._env "FOO".data = none ∧
      (∀ k', k' ≠ "FOO".data → envGet c'._env k' =
        envGet (Command.init "prog".data [("FOO".data, "bar".data)]
          "/".data)._env k') ∧
      c'._args = (Command.init "prog".data [("FOO".data, "bar".data)]
        "/".data)._args ∧
      c'._program = "prog".data ∧
      c'._user = none ∧ c'._workdir = "/".data ∧
      c'.env_remove "FOO".data = .error (.keyError "FOO".data)) := by
  constructor
  · exact (C2_env_remove_behaviour
      (Command.init "prog".data [("FOO".data, "bar".data)] "/".data)
      "BAR".data).1 (by decide)
  · exact (C2_env_remove_behaviour
      (Command.init "prog".data [("FOO".data, "bar".data)] "/".data)
      "FOO".data).2 "bar".data (by decide)

/-- C3: `User.set_user` performs its process-identity changes in the
mandatory order — supplementary group list first (`initgroups` from the
stored username when the supplementary-group source is "derive", else the
single-element list `[gid]`), then `setgid`, then `setuid`, and only
afterwards the `HOME` entry; in particular the uid change never precedes
any group change in the trace. -/
theorem C3_privilege_drop_order (u : User) :
    u.set_user =
      (match u.sgroups_user with
       | some name => SysOp.initgroups name u.gid
       | none => SysOp.setgroups [u.gid])
      :: [SysOp.setgid u.gid, SysOp.setuid u.uid, SysOp.setHome u.home] ∧
    (∀ i j op gop, u.set_user.get? i = some op → op.isUidChange = true →
      u.set_user.get? j = some gop → gop.isGroupChange = true → j < i) := by
  cases h : u.sgroups_user with
  | none =>
    refine ⟨by simp [User.set_user, h], ?_⟩
    intro i j op gop hi hui hj hgrp
    simp only [User.set_user, h, List.nil_append, List.cons_append] at hi hj
    match i, hi with
    | 0, hi =>
      simp only [List.get?] at hi
      cases hi
      simp [SysOp.isUidChange] at hui
    | 1, hi =>
      simp only [List.get?] at hi
      cases hi
      simp [SysOp.isUidChange] at hui
    | 2, hi =>
      match j, hj with
      | 0, _ => omega
      | 1, _ => omega
      | 2, hj =>
        simp only [List.get?] at hj
        cases hj
        simp [SysOp.isGroupChange] at hgrp
      | 3, hj =>
        simp only [List.get?] at hj
        cases hj
        simp [SysOp.isGroupChange] at hgrp
      | n + 4, hj => simp [List.get?] at hj
    | 3, hi =>
      simp only [List.get?] at hi
      cases hi
      simp [SysOp.isUidChange] at hui
    | n + 4, hi => simp [List.get?] at hi
  | some nm =>
    refine ⟨by simp [User.set_user, h], ?_⟩
    intro i j op gop hi hui hj hgrp
    simp only [User.set_user, h, List.nil_append, List.cons_append] at hi hj
    match i, hi with
    | 0, hi =>
      simp only [List.get?] at hi
      cases hi
      simp [SysOp.isUidChange] at hui
    | 1, hi =>
      simp only [List.get?] at hi
      cases hi
      simp [SysOp.isUidChange] at hui
    | 2, hi =>
      match j, hj with
      | 0, _ => omega
      | 1, _ => omega
      | 2, hj =>
        simp only [List.get?] at hj
        cases hj
        simp [SysOp.isGroupChange] at hgrp
      | 3, hj =>
        simp only [List.get?] at hj
        cases hj
        simp [SysOp.isGroupChange] at hgrp
      | n + 4, hj => simp [List.get?] at hj
    | 3, hi =>
      simp only [List.get?] at hi
      cases hi
      simp [SysOp.isUidChange] at hui
    | n + 4, hi => simp [List.get?] at hi

/-- C3 witness: the ordered trace at a concrete derive-mode identity. -/
theorem C3_privilege_drop_order_witness :
    ({ uid := 1000, gid := 100, sgroups_user := some "jamie".data,
       home := "/home/jamie".data } : User).set_user =
      (match (some "jamie".data : Option PStr) with
       | some name => SysOp.initgroups name 100
       | none => SysOp.setgroups [100])
      :: [SysOp.setgid 100, SysOp.setuid 1000,
          SysOp.setHome "/home/jamie".data] ∧
    (∀ i j op gop,
      ({ uid := 1000, gid := 100, sgroups_user := some "jamie".data,
         home := "/home/jamie".data } : User).set_user.get? i = some op →
      op.isUidChange = true →
      ({ uid := 1000, gid := 100, sgroups_user := some "jamie".data,
         home := "/home/jamie".data } : User).set_user.get? j = some gop →
      gop.isGroupChange = true → j < i) :=
  C3_privilege_drop_order
    { uid := 1000, gid := 100, sgroups_user := some "jamie".data,
      home := "/home/jamie".data }

/-- C7: when the builder's environment maps `X` to `v`,
`opt_from_env(flag, X)` with default arguments appends exactly the two
arguments `flag` then `v`, in that order, and removes `X` from the
builder's environment (all other keys keep their values). -/
theorem C7_opt_from_env_appends_pair (c : Command) (flag X v : PStr)
    (h : envGet c._env X = some v) :
    ∃ c', c.opt_from_env flag X none false true = .ok c' ∧
      c'._args = c._args ++ [flag, v] ∧
      c'._env = envDel c._env X ∧
      envGet c'._env X = none ∧
      (∀ k, k ≠ X → envGet c'._env k = envGet c._env k) ∧
      c'._program = c._program := by
  refine ⟨({ c with _env := envDel c._env X } : Command).addArgs [flag, v],
    ?_, by simp [Command.addArgs], by simp [Command.addArgs], ?_, ?_,
    by simp [Command.addArgs]⟩
  · simp [Command.opt_from_env, Command.argFromEnvCore, h]
  · simp [Command.addArgs, envGet_envDel_self]
  · intro k hk
    simp [Command.addArgs, envGet_envDel_ne c._env X k hk]

/-- C7 witness: `FOO=bar` present, `opt_from_env("--flag", "FOO")`. -/
theorem C7_opt_from_env_appends_pair_witness :
    ∃ c', (Command.init "prog".data [("FOO".data, "bar".data)]
        "/".data).opt_from_env "--flag".data "FOO".data none false true =
        .ok c' ∧
      c'._args = (Command.init "prog".data [("FOO".data, "bar".data)]
        "/".data)._args ++ ["--flag".data, "bar".data] ∧
      c'._env = envDel (Command.init "prog".data [("FOO".data, "bar".data)]
        "/".data)._env "FOO".data ∧
      envGet c'._env "FOO".data = none ∧
      (∀ k, k ≠ "FOO".data → envGet c'._env k =
        envGet (Command.init "prog".data [("FOO".data, "bar".data)]
          "/".data)._env k) ∧
      c'._program = (Command.init "prog".data [("FOO".data, "bar".data)]
        "/".data)._program :=
  C7_opt_from_env_appends_pair
    (Command.init "prog".data [("FOO".data, "bar".data)] "/".data)
    "--flag".data "FOO".data "bar".data (by decide)

/-- C8: `arg_from_env(X, required=True)` with no default on a builder whose
environment lacks `X` raises `RuntimeError`, whose message contains the
variable name `X`, the word "argument", and the program name; and the
builder state is left unchanged (in particular the argument sequence is
not extended). -/
theorem C8_required_arg_missing (c : Command) (X : PStr)
    (h : envGet c._env X = none) :
    c.arg_from_env X none true true =
      .error (.runtimeError (requiredMsg X "an argument".data c._program)) ∧
    (∃ a b, requiredMsg X "an argument".data c._program = a ++ X ++ b) ∧
    (∃ a b, requiredMsg X "an argument".data c._program =
      a ++ "argument".data ++ b) ∧
    (∃ a b, requiredMsg X "an argument".data c._program =
      a ++ c._program ++ b) ∧
    applyOp c (.argFromEnv X none true true) = c := by
  have hrun : c.arg_from_env X none true true =
      .error (.runtimeError (requiredMsg X "an argument".data c._program)) := by
    simp [Command.arg_from_env, Command.argFromEnvCore, h]
  have han : ("an argument".data : PStr) = "an ".data ++ "argument".data := by
    decide
  refine ⟨hrun, ?_, ?_, ?_, ?_⟩
  · exact ⟨"Environment variable \"".data,
      "\" is required to determine ".data ++ "an argument".data
        ++ " for program \"".data ++ c._program ++ "\"".data,
      by simp [requiredMsg]⟩
  · exact ⟨"Environment variable \"".data ++ X
        ++ "\" is required to determine ".data ++ "an ".data,
      " for program \"".data ++ c._program ++ "\"".data,
      by simp only [requiredMsg, han]; simp⟩
  · exact ⟨"Environment variable \"".data ++ X
        ++ "\" is required to determine ".data ++ "an argument".data
        ++ " for program \"".data,
      "\"".data,
      by simp [requiredMsg]⟩
  · simp [applyOp, hrun]

/-- C8 witness: empty environment, variable `"X"`, program `"prog"`. -/
theorem C8_required_arg_missing_witness :
    (Command.init "prog".data [] "/".data).arg_from_env "X".data none
        true true =
      .error (.runtimeError (requiredMsg "X".data "an argument".data
        "prog".data)) ∧
    (∃ a b, requiredMsg "X".data "an argument".data "prog".data =
      a ++ "X".data ++ b) ∧
    (∃ a b, requiredMsg "X".data "an argument".data "prog".data =
      a ++ "argument".data ++ b) ∧
    (∃ a b, requiredMsg "X".data "an argument".data "prog".data =
      a ++ "prog".data ++ b) ∧
    applyOp (Command.init "prog".data [] "/".data)
      (.argFromEnv "X".data none true true) =
      Command.init "prog".data [] "/".data :=
  C8_required_arg_missing (Command.init "prog".data [] "/".data) "X".data
    (by decide)

/-- C5: for a group name `g` present in the group database (a name: not a
numeral, no `':'`), `from_spec (":" ++ g)` yields the current process's
real uid, the named group's gid, no supplementary-group derivation
(`sgroups_user = none`), and the current user's home. -/
theorem C5_colon_group_name (db : SysDB) (g : PStr) (gr : Group) (p : Passwd)
    (hg : g ≠ []) (hnd : pyIsDigit g = false) (hnc : ∀ c ∈ g, c ≠ ':')
    (hgr : db.getgrnam g = some gr)
    (hp : db.getpwuid db.cur_uid = some p) :
    from_spec db (':' :: g) =
      .ok { uid := db.cur_uid, gid := gr.gr_gid, sgroups_user := none,
            home := p.pw_dir } := by
  have hs : pySplit ':' (':' :: g) = [[], g] := pySplit_leading_sep ':' g hnc
  simp only [from_spec, hs]
  simp [fromSpecParts, userPart, groupPart, hp, hg, hnd, hgr]

/-- C5 witness: `":wheel"` against the sample database. -/
theorem C5_colon_group_name_witness :
    from_spec testDB ":wheel".data =
      .ok { uid := testDB.cur_uid, gid := 42, sgroups_user := none,
            home := testPasswd.pw_dir } :=
  C5_colon_group_name testDB "wheel".data
    { gr_name := "wheel".data, gr_gid := 42 } testPasswd
    (by decide) (by decide) (by decide) (by decide) (by decide)

/-- C6: a spec that is a single in-range numeral uid with no passwd entry
resolves without error to that uid, the current process's real gid, no
supplementary-group derivation, and home `"/"`. -/
theorem C6_numeric_uid_no_entry (db : SysDB) (spec : PStr)
    (hd : pyIsDigit spec = true)
    (hrange : digitsToNat spec ≤ MAX_ID)
    (hnoent : db.getpwuid (digitsToNat spec) = none) :
    from_spec db spec =
      .ok { uid := digitsToNat spec, gid := db.cur_gid,
            sgroups_user := none, home := "/".data } := by
  have hne := pyIsDigit_ne_nil hd
  have hs : pySplit ':' spec = [spec] :=
    pySplit_no_sep ':' spec (pyIsDigit_no_colon hd)
  have hr : ¬ digitsToNat spec > MAX_ID := Nat.not_lt.mpr hrange
  simp only [from_spec, hs]
  simp [fromSpecParts, userPart, groupPart, toId, MIN_ID, hd, hne, hr, hnoent]

/-- C6 witness: uid `1001` has no entry in the sample database. -/
theorem C6_numeric_uid_no_entry_witness :
    from_spec testDB "1001".data =
      .ok { uid := digitsToNat "1001".data, gid := testDB.cur_gid,
            sgroups_user := none, home := "/".data } :=
  C6_numeric_uid_no_entry testDB "1001".data (by decide) (by decide)
    (by decide)

/-- C9: `from_spec ":"` (both parts empty) returns exactly the same result
as `from_spec ""` against the same database; when the current uid has a
passwd entry, both yield the current uid, that entry's gid and home, and
supplementary-group derivation from that entry's username. -/
theorem C9_colon_equals_empty (db : SysDB) :
    from_spec db ":".data = from_spec db "".data ∧
    (∀ p, db.getpwuid db.cur_uid = some p →
      from_spec db ":".data =
        .ok { uid := db.cur_uid, gid := p.pw_gid,
              sgroups_user := some p.pw_name, home := p.pw_dir }) := by
  constructor
  · rfl
  · intro p hp
    have hs : pySplit ':' ":".data = [[], []] := by decide
    simp only [from_spec, hs]
    simp [fromSpecParts, userPart, groupPart, hp]

/-- C9 witness: the sample database (current uid 1000, entry `jamie`). -/
theorem C9_colon_equals_empty_witness :
    from_spec testDB ":".data = from_spec testDB "".data ∧
    from_spec testDB ":".data =
      .ok { uid := testDB.cur_uid, gid := testPasswd.pw_gid,
            sgroups_user := some testPasswd.pw_name,
            home := testPasswd.pw_dir } :=
  ⟨(C9_colon_equals_empty testDB).1,
   (C9_colon_equals_empty testDB).2 testPasswd (by decide)⟩

/-! ### Machine lemmas for the snapshot claims. -/

theorem runEvents_cmd_eq_builderOps (es : List Event) :
    ∀ s : Sys, (runEvents s es).cmd = (builderOps es).foldl applyOp s.cmd := by
  induction es with
  | nil => intro s; rfl
  | cons e rest ih =>
    intro s
    cases e with
    | builder op =>
      simp [runEvents, builderOps, stepEvent, List.foldl] at ih ⊢
      exact ih _
    | procSetEnv k v =>
      simp [runEvents, builderOps, stepEvent, List.foldl] at ih ⊢
      exact ih _
    | procChdir d =>
      simp [runEvents, builderOps, stepEvent, List.foldl] at ih ⊢
      exact ih _

theorem argFromEnvCore_ok_workdir {c c' : Command} {k m : PStr} {rm r : Bool}
    {d v : Option PStr} (h : c.argFromEnvCore k rm d r m = .ok (c', v)) :
    c'._workdir = c._workdir ∧ c'._program = c._program := by
  simp only [Command.argFromEnvCore] at h
  split at h
  · exact absurd h (by simp)
  · rw [Except.ok.injEq, Prod.mk.injEq] at h
    obtain ⟨hc, -⟩ := h
    cases rm
    · rw [if_neg (by simp)] at hc
      subst hc
      exact ⟨rfl, rfl⟩
    · rw [if_pos rfl] at hc
      subst hc
      exact ⟨rfl, rfl⟩

theorem applyOp_preserves_workdir (c : Command) (op : BuilderOp)
    (h : ∀ d, op ≠ .setWorkdir d) : (applyOp c op)._workdir = c._workdir := by
  cases op with
  | addArgs xs => rfl
  | setEnv k v => rfl
  | removeEnv k =>
    simp only [applyOp]
    cases hg : envGet c._env k <;> simp [Command.env_remove, hg]
  | clearEnv => rfl
  | argFromEnv k d r rm =>
    simp only [applyOp]
    cases hc : c.arg_from_env k d r rm with
    | error e => rfl
    | ok c' =>
      simp only [Command.arg_from_env] at hc
      split at hc
      · cases hc
      next c'' v heq =>
        cases hc
        exact ((argFromEnvCore_ok_workdir heq).1 : _)
      next c'' heq =>
        cases hc
        exact (argFromEnvCore_ok_workdir heq).1
  | optFromEnv o k d r rm =>
    simp only [applyOp]
    cases hc : c.opt_from_env o k d r rm with
    | error e => rfl
    | ok c' =>
      simp only [Command.opt_from_env] at hc
      split at hc
      · cases hc
      next c'' v heq =>
        cases hc
        exact ((argFromEnvCore_ok_workdir heq).1 : _)
      next c'' heq =>
        cases hc
        exact (argFromEnvCore_ok_workdir heq).1
  | setUser u => rfl
  | setWorkdir d => exact absurd rfl (h d)

theorem runEvents_preserves_workdir (es : List Event) :
    ∀ s : Sys, (∀ e ∈ es, e.touchesWorkdir = false) →
      (runEvents s es).cmd._workdir = s.cmd._workdir := by
  induction es with
  | nil => intro s _; rfl
  | cons e rest ih =>
    intro s h
    have he := h e (by simp)
    have hrest : ∀ e' ∈ rest, e'.touchesWorkdir = false :=
      fun e' he' => h e' (by simp [he'])
    have hstep : (stepEvent s e).cmd._workdir = s.cmd._workdir := by
      cases e with
      | builder op =>
        have hop : ∀ d, op ≠ BuilderOp.setWorkdir d := by
          intro d hd
          subst hd
          simp [Event.touchesWorkdir] at he
        exact applyOp_preserves_workdir s.cmd op hop
      | procSetEnv k v => rfl
      | procChdir d => rfl
    calc (runEvents s (e :: rest)).cmd._workdir
        = (runEvents (stepEvent s e) rest).cmd._workdir := rfl
      _ = (stepEvent s e).cmd._workdir := ih _ hrest
      _ = s.cmd._workdir := hstep

/-- C4: the builder's environment is a snapshot, never a live view: for a
command constructed from a given process environment, any two
post-construction histories that perform the same builder calls — but
arbitrarily different mutations of the real process environment (and
working directory) — leave the builder in identical states, and in
particular the spawn request `run` would issue (argv, child environment,
pre-exec actions) is identical. -/
theorem C4_env_snapshot_noninterference (program : PStr)
    (procEnv : List (PStr × PStr)) (cwd : PStr) (es es' : List Event)
    (h : builderOps es = builderOps es') :
    (runEvents (mkSys program procEnv cwd) es).cmd =
      (runEvents (mkSys program procEnv cwd) es').cmd ∧
    (runEvents (mkSys program procEnv cwd) es).cmd.runCall =
      (runEvents (mkSys program procEnv cwd) es').cmd.runCall := by
  have h1 := runEvents_cmd_eq_builderOps es (mkSys program procEnv cwd)
  have h2 := runEvents_cmd_eq_builderOps es' (mkSys program procEnv cwd)
  rw [h1, h2, h]
  exact ⟨rfl, rfl⟩

/-- C4 witness: overwriting `A` in the process environment after
construction (versus doing nothing) leaves the builder identical. -/
theorem C4_env_snapshot_noninterference_witness :
    (runEvents (mkSys "prog".data [("A".data, "1".data)] "/".data)
        [Event.procSetEnv "A".data "2".data]).cmd =
      (runEvents (mkSys "prog".data [("A".data, "1".data)] "/".data)
        []).cmd ∧
    (runEvents (mkSys "prog".data [("A".data, "1".data)] "/".data)
        [Event.procSetEnv "A".data "2".data]).cmd.runCall =
      (runEvents (mkSys "prog".data [("A".data, "1".data)] "/".data)
        []).cmd.runCall :=
  C4_env_snapshot_noninterference "prog".data [("A".data, "1".data)]
    "/".data [Event.procSetEnv "A".data "2".data] [] (by decide)

/-- C10: the working directory defaults to a construction-time snapshot:
for any post-construction history containing no `workdir(...)` call, the
builder's recorded directory is still the construction-time one, the
pre-exec hook of run mode ends by changing directory to it, and exec mode
changes directory to it immediately before the image-replacement call —
regardless of any process working-directory changes in the history. -/
theorem C10_workdir_snapshot (program : PStr)
    (procEnv : List (PStr × PStr)) (cwd : PStr) (es : List Event)
    (h : ∀ e ∈ es, e.touchesWorkdir = false) :
    (runEvents (mkSys program procEnv cwd) es).cmd._workdir = cwd ∧
    (∃ pre, (runEvents (mkSys program procEnv cwd) es).cmd.preexecFn =
      pre ++ [ProcAct.chdir cwd]) ∧
    (∃ pre args env,
      (runEvents (mkSys program procEnv cwd) es).cmd.execTrace =
        pre ++ [ProcAct.chdir cwd,
          ProcAct.execvpe
            (runEvents (mkSys program procEnv cwd) es).cmd._program
            args env]) := by
  have hw : (runEvents (mkSys program procEnv cwd) es).cmd._workdir = cwd :=
    runEvents_preserves_workdir es (mkSys program procEnv cwd) h
  refine ⟨hw, ?_, ?_⟩
  · exact ⟨_, by rw [Command.preexecFn, hw]⟩
  · cases hu : (runEvents (mkSys program procEnv cwd) es).cmd._user with
    | none =>
      exact ⟨[], _, _, by rw [Command.execTrace, hu, hw]; rfl⟩
    | some u =>
      exact ⟨[ProcAct.userOps u.set_user], _, _,
        by rw [Command.execTrace, hu, hw]; rfl⟩

/-- C10 witness: the process changes directory after construction; the
builder still records and uses the construction-time directory. -/
theorem C10_workdir_snapshot_witness :
    (runEvents (mkSys "prog".data [] "/orig".data)
        [Event.procChdir "/tmp".data]).cmd._workdir = "/orig".data ∧
    (∃ pre, (runEvents (mkSys "prog".data [] "/orig".data)
        [Event.procChdir "/tmp".data]).cmd.preexecFn =
      pre ++ [ProcAct.chdir "/orig".data]) ∧
    (∃ pre args env,
      (runEvents (mkSys "prog".data [] "/orig".data)
        [Event.procChdir "/tmp".data]).cmd.execTrace =
        pre ++ [ProcAct.chdir "/orig".data,
          ProcAct.execvpe
            (runEvents (mkSys "prog".data [] "/orig".data)
              [Event.procChdir "/tmp".data]).cmd._program
            args env]) :=
  C10_workdir_snapshot "prog".data [] "/orig".data
    [Event.procChdir "/tmp".data] (by decide)

end Pydexec
